import Mathlib

/-!
Verification of the MCP demo server (`mcp_server_example.py`) and the
session loop it runs.  The server-side logic is embedded shallowly:

* Python's JSON-like runtime values (strings, integers, lists, dicts)
  become the inductive type `Value`;
* `MCPServer.handle_tool_call` becomes a pure function returning the
  Python result (`Except PyError Value`) together with the list of
  notifications sent through `tool_call.send_notification`, in emission
  order; the `tool_call and hasattr(tool_call, "send_notification")`
  guard becomes the boolean argument `hasNotify`;
* the `async for tool_call in session.tool_calls()` loop of
  `MCPServer.handle_session` becomes a map over a list of incoming tool
  calls, each producing a `return_success`/`return_error` outcome.
-/

/-- Python runtime values exchanged with the demo tools: strings,
integers, lists and (ordered) dicts, mirroring the JSON-like payloads of
the example. -/
inductive Value where
  | str (s : String)
  | num (n : Int)
  | list (vs : List Value)
  | obj (fields : List (String × Value))

/-- Python type name of a `Value`, as used in runtime error messages. -/
def typeName : Value → String
  | .str _ => "str"
  | .num _ => "int"
  | .list _ => "list"
  | .obj _ => "dict"

mutual

/-- Python `repr` of a `Value` (used by `str` on containers). -/
def pyRepr : Value → String
  | .str s => "\x27" ++ s ++ "\x27"
  | .num n => toString n
  | .list vs => "[" ++ String.intercalate ", " (pyReprList vs) ++ "]"
  | .obj fs => "\x7b" ++ String.intercalate ", " (pyReprFields fs) ++ "\x7d"

/-- `repr` of each element of a Python list. -/
def pyReprList : List Value → List String
  | [] => []
  | v :: vs => pyRepr v :: pyReprList vs

/-- `repr` of each key/value entry of a Python dict. -/
def pyReprFields : List (String × Value) → List String
  | [] => []
  | (k, v) :: fs => ("\x27" ++ k ++ "\x27: " ++ pyRepr v) :: pyReprFields fs

end

/-- Python `str` of a `Value`, as interpolated by f-strings. -/
def pyStr : Value → String
  | .str s => s
  | v => pyRepr v

/-- The Python exceptions the dispatch can raise: the explicit
`ValueError` of the unknown-tool branch, and the interpreter's
`TypeError` for ill-typed `+` or `range` arguments. -/
inductive PyError where
  | valueError (msg : String)
  | typeError (msg : String)

/-- Python `str(e)` on a raised exception: the message it was built
with. -/
def errStr : PyError → String
  | .valueError msg => msg
  | .typeError msg => msg

/-- Python `params.get(key, default)` on the parameter dictionary. -/
def dictGet (params : List (String × Value)) (key : String) (default : Value) : Value :=
  match params.lookup key with
  | some v => v
  | none => default

/-- Python `+` on runtime values: integer addition, string and list
concatenation; any other combination raises `TypeError`. -/
def pyAdd : Value → Value → Except PyError Value
  | .num a, .num b => .ok (.num (a + b))
  | .str a, .str b => .ok (.str (a ++ b))
  | .list a, .list b => .ok (.list (a ++ b))
  | a, b => .error (.typeError
      ("unsupported operand type(s) for +: \x27" ++ typeName a
        ++ "\x27 and \x27" ++ typeName b ++ "\x27"))

/-- A tool parameter descriptor (`ToolParameterDefinition`). -/
structure ToolParameterDefinition where
  name : String
  type : String
  description : String
  required : Bool

/-- A tool result descriptor (`ToolResultDefinition`). -/
structure ToolResultDefinition where
  type : String
  description : String

/-- A tool descriptor (`ToolDefinition`). -/
structure ToolDefinition where
  name : String
  description : String
  parameters : List ToolParameterDefinition
  result : ToolResultDefinition

/-- The static `TOOLS` list declared at module load in
`mcp_server_example.py`. -/
def TOOLS : List ToolDefinition :=
  [ { name := "echo"
      description := "Echoes back the message"
      parameters :=
        [ { name := "message", type := "string",
            description := "The message to echo", required := true } ]
      result := { type := "string", description := "The echoed message" } },
    { name := "add"
      description := "Adds two numbers"
      parameters :=
        [ { name := "a", type := "number",
            description := "First number", required := true },
          { name := "b", type := "number",
            description := "Second number", required := true } ]
      result := { type := "number", description := "The sum of a and b" } },
    { name := "mcp_create_text_to_image_task"
      description := "Creates a text to image generation task and sends progress notifications"
      parameters :=
        [ { name := "prompt", type := "string",
            description := "The prompt for image generation", required := true },
          { name := "width", type := "number",
            description := "Width of the image", required := true },
          { name := "height", type := "number",
            description := "Height of the image", required := true },
          { name := "num_images", type := "number",
            description := "Number of images to generate", required := true } ]
      result := { type := "object",
                  description := "The result of the image generation task" } } ]

/-- The tool names declared in `TOOLS`. -/
def toolNames : List String := TOOLS.map ToolDefinition.name

/-- The `MCPServer` class: it declares no `__init__` and stores no
instance attribute, so the embedded state is empty. -/
structure MCPServer where

/-- `MCPServer.handle_tool_call`: dispatch on the tool name.  Returns
the Python result (or the raised exception) paired with the list of
notification payloads sent via `tool_call.send_notification`, in order;
`hasNotify` embeds `tool_call and hasattr(tool_call, "send_notification")`.
Notifications appear in the emitted list before the result is computed,
matching the source order. -/
def MCPServer.handle_tool_call (_self : MCPServer) (tool_name : String)
    (params : List (String × Value)) (hasNotify : Bool) :
    Except PyError Value × List Value :=
  if tool_name = "echo" then
    (.ok (dictGet params "message" (.str "")), [])
  else if tool_name = "add" then
    (pyAdd (dictGet params "a" (.num 0)) (dictGet params "b" (.num 0)), [])
  else if tool_name = "mcp_create_text_to_image_task" then
    let prompt := dictGet params "prompt" (.str "")
    let width := dictGet params "width" (.num 512)
    let height := dictGet params "height" (.num 512)
    let num_images := dictGet params "num_images" (.num 1)
    let notifs : List Value :=
      if hasNotify then
        Value.obj [("type", .str "status"), ("status", .str "starting"),
          ("message", .str ("Starting image generation for: " ++ pyStr prompt))]
        :: (List.range' 1 4).map (fun i =>
              Value.obj [("type", .str "progress"),
                ("progress", .num (Int.ofNat (i * 25))),
                ("message", .str ("Generating image: "
                  ++ toString (Int.ofNat (i * 25)) ++ "% complete"))])
        ++ [Value.obj [("type", .str "status"), ("status", .str "completed"),
              ("message", .str "Image generation complete!")]]
      else []
    match num_images with
    | .num n =>
        (.ok (.obj
          [ ("images", .list ((List.range n.toNat).map (fun i =>
              Value.obj
                [ ("url", .str ("https://example.com/images/generated_"
                    ++ toString i ++ ".png")),
                  ("width", width),
                  ("height", height) ]))),
            ("prompt", prompt) ]), notifs)
    | other =>
        (.error (.typeError ("\x27" ++ typeName other
          ++ "\x27 object cannot be interpreted as an integer")), notifs)
  else
    (.error (.valueError ("Unknown tool: " ++ tool_name)), [])

/-- What the session loop does with one finished call:
`tool_call.return_success(result)` or `tool_call.return_error(str(e))`. -/
inductive CallOutcome where
  | returnSuccess (v : Value)
  | returnError (msg : String)

/-- One incoming tool call as yielded by `session.tool_calls()`:
its name, its parameter dict, and whether the call object carries a
usable `send_notification`. -/
structure ToolCall where
  name : String
  parameters : List (String × Value)
  hasNotify : Bool

/-- The body of the `async for` loop in `MCPServer.handle_session`:
run `handle_tool_call`, then `return_success` on a value or
`return_error(str(e))` on an exception. -/
def processCall (server : MCPServer) (tc : ToolCall) : CallOutcome :=
  match (server.handle_tool_call tc.name tc.parameters tc.hasNotify).1 with
  | .ok v => .returnSuccess v
  | .error e => .returnError (errStr e)

/-- `MCPServer.handle_session`'s tool-call loop over the stream of
incoming calls: every call is processed and the loop continues to the
next regardless of success or failure. -/
def handle_session (server : MCPServer) (calls : List ToolCall) : List CallOutcome :=
  calls.map (processCall server)

/-- Field lookup on a notification payload (a Python dict value). -/
def notifField (v : Value) (k : String) : Option Value :=
  match v with
  | .obj fs => fs.lookup k
  | _ => none

/-- C1: for every parameter dictionary mapping `"message"` to a string
`m`, `handle_tool_call("echo", params)` returns exactly `m`. -/
theorem echo_returns_message (server : MCPServer) (params : List (String × Value))
    (hasNotify : Bool) (m : String)
    (h : params.lookup "message" = some (Value.str m)) :
    (server.handle_tool_call "echo" params hasNotify).1 = Except.ok (Value.str m) := by
  simp [MCPServer.handle_tool_call, dictGet, h]

/-- C1 witness: `echo` of `"hi"` returns `"hi"`. -/
theorem echo_returns_message_witness :
    (MCPServer.mk.handle_tool_call "echo" [("message", Value.str "hi")] false).1
      = Except.ok (Value.str "hi") :=
  echo_returns_message MCPServer.mk [("message", Value.str "hi")] false "hi" rfl

/-- C2: for every parameter dictionary mapping `"a"` and `"b"` to
numbers, `handle_tool_call("add", params)` returns their sum. -/
theorem add_returns_sum (server : MCPServer) (params : List (String × Value))
    (hasNotify : Bool) (a b : Int)
    (ha : params.lookup "a" = some (Value.num a))
    (hb : params.lookup "b" = some (Value.num b)) :
    (server.handle_tool_call "add" params hasNotify).1
      = Except.ok (Value.num (a + b)) := by
  simp [MCPServer.handle_tool_call, dictGet, ha, hb, pyAdd]

/-- C2 witness: `add` of `2` and `3` returns `5`. -/
theorem add_returns_sum_witness :
    (MCPServer.mk.handle_tool_call "add"
        [("a", Value.num 2), ("b", Value.num 3)] false).1
      = Except.ok (Value.num 5) :=
  add_returns_sum MCPServer.mk [("a", Value.num 2), ("b", Value.num 3)] false 2 3 rfl rfl

/-- C6: `TOOLS` is a static value of exactly three descriptors named
`echo`, `add` and `mcp_create_text_to_image_task`; each carries a
parameter list whose entries have a name, a type and a required flag,
and a result type.  Being a Lean `def` over an immutable list, it is
fixed once defined and no operation of the embedding mutates it. -/
theorem tools_static_descriptors :
    TOOLS.length = 3 ∧
    TOOLS.map ToolDefinition.name = ["echo", "add", "mcp_create_text_to_image_task"] ∧
    TOOLS.map (fun t => t.parameters.map (fun p => (p.name, p.type, p.required)))
      = [ [("message", "string", true)],
          [("a", "number", true), ("b", "number", true)],
          [("prompt", "string", true), ("width", "number", true),
           ("height", "number", true), ("num_images", "number", true)] ] ∧
    TOOLS.map (fun t => t.result.type) = ["string", "number", "object"] :=
  ⟨rfl, rfl, rfl, rfl⟩

/-- C7: `handle_tool_call` is deterministic and stateless: its outcome
(result and notification sequence alike) is the same function of the
tool name, the parameters and the notification-channel flag whatever
the server object, and no server state is written (the embedding
returns no state because the Python method touches none). -/
theorem tool_call_deterministic_stateless (s1 s2 : MCPServer) (tool_name : String)
    (params : List (String × Value)) (hasNotify : Bool) :
    s1.handle_tool_call tool_name params hasNotify
      = s2.handle_tool_call tool_name params hasNotify := rfl

/-- C10: the value returned for `mcp_create_text_to_image_task` does
not depend on the notification channel: with and without
`send_notification` the result component is the same. -/
theorem image_result_independent_of_notify (server : MCPServer)
    (params : List (String × Value)) :
    (server.handle_tool_call "mcp_create_text_to_image_task" params true).1
      = (server.handle_tool_call "mcp_create_text_to_image_task" params false).1 := by
  cases h : dictGet params "num_images" (Value.num 1) <;>
    simp [MCPServer.handle_tool_call, h]

/-- `pyAdd` never raises a `ValueError`: its only failure is the
interpreter's `TypeError`. -/
theorem pyAdd_not_valueError (a b : Value) (msg : String) :
    pyAdd a b ≠ Except.error (PyError.valueError msg) := by
  cases a <;> cases b <;> simp [pyAdd]

/-- C3: `handle_tool_call` raises the unknown-tool `ValueError` (whose
message names the tool) exactly when the tool name is not among the
names declared in `TOOLS`; every declared name is dispatched to a
computation instead. -/
theorem unknown_tool_error_iff (server : MCPServer) (tool_name : String)
    (params : List (String × Value)) (hasNotify : Bool) :
    (server.handle_tool_call tool_name params hasNotify).1
        = Except.error (PyError.valueError ("Unknown tool: " ++ tool_name))
      ↔ tool_name ∉ toolNames := by
  by_cases h1 : tool_name = "echo"
  · subst h1
    simp [MCPServer.handle_tool_call, toolNames, TOOLS]
  · by_cases h2 : tool_name = "add"
    · subst h2
      simp [MCPServer.handle_tool_call, toolNames, TOOLS, pyAdd_not_valueError]
    · by_cases h3 : tool_name = "mcp_create_text_to_image_task"
      · subst h3
        cases hn : dictGet params "num_images" (Value.num 1) <;>
          simp [MCPServer.handle_tool_call, hn, toolNames, TOOLS]
      · simp [MCPServer.handle_tool_call, h1, h2, h3, toolNames, TOOLS]

/-- C4: in `handle_session`'s loop every tool call is answered, in
place: a call whose dispatch returns a value is answered with
`return_success` on that value, one whose dispatch raises `e` with
`return_error(str(e))` (the outcome constructors are distinct, so
exactly one of the two is invoked), and the loop processes every call
of the stream. -/
theorem session_loop_outcomes (server : MCPServer) (calls : List ToolCall) :
    (handle_session server calls).length = calls.length ∧
    ∀ (i : Nat) (tc : ToolCall), calls[i]? = some tc →
      (∀ v, (server.handle_tool_call tc.name tc.parameters tc.hasNotify).1
            = Except.ok v →
          (handle_session server calls)[i]? = some (CallOutcome.returnSuccess v)) ∧
      (∀ e, (server.handle_tool_call tc.name tc.parameters tc.hasNotify).1
            = Except.error e →
          (handle_session server calls)[i]? = some (CallOutcome.returnError (errStr e))) := by
  refine ⟨by simp [handle_session], ?_⟩
  intro i tc htc
  constructor
  · intro v hv
    simp [handle_session, List.getElem?_map, htc, processCall, hv]
  · intro e he
    simp [handle_session, List.getElem?_map, htc, processCall, he]

/-- C4 witness: a two-call session in which the first call succeeds and
is answered with its value, and the second names an unknown tool and is
answered with the rendered error. -/
theorem session_loop_outcomes_witness :
    (handle_session MCPServer.mk
        [⟨"echo", [("message", Value.str "x")], false⟩, ⟨"nope", [], false⟩])[0]?
      = some (CallOutcome.returnSuccess (Value.str "x")) ∧
    (handle_session MCPServer.mk
        [⟨"echo", [("message", Value.str "x")], false⟩, ⟨"nope", [], false⟩])[1]?
      = some (CallOutcome.returnError "Unknown tool: nope") :=
  ⟨((session_loop_outcomes MCPServer.mk
        [⟨"echo", [("message", Value.str "x")], false⟩, ⟨"nope", [], false⟩]).2
      0 ⟨"echo", [("message", Value.str "x")], false⟩ rfl).1 (Value.str "x") rfl,
   ((session_loop_outcomes MCPServer.mk
        [⟨"echo", [("message", Value.str "x")], false⟩, ⟨"nope", [], false⟩]).2
      1 ⟨"nope", [], false⟩ rfl).2 (PyError.valueError "Unknown tool: nope") rfl⟩

/-- The notification sequence emitted by the image task: the body of
the `if tool_call and hasattr(...)` guard, independent of how the
result is subsequently built. -/
theorem handle_image_snd (server : MCPServer) (params : List (String × Value))
    (hasNotify : Bool) :
    (server.handle_tool_call "mcp_create_text_to_image_task" params hasNotify).2
      = if hasNotify then
          Value.obj [("type", .str "status"), ("status", .str "starting"),
            ("message", .str ("Starting image generation for: "
              ++ pyStr (dictGet params "prompt" (.str ""))))]
          :: (List.range' 1 4).map (fun i =>
                Value.obj [("type", .str "progress"),
                  ("progress", .num (Int.ofNat (i * 25))),
                  ("message", .str ("Generating image: "
                    ++ toString (Int.ofNat (i * 25)) ++ "% complete"))])
          ++ [Value.obj [("type", .str "status"), ("status", .str "completed"),
                ("message", .str "Image generation complete!")]]
        else [] := by
  cases h : dictGet params "num_images" (Value.num 1) <;>
    simp [MCPServer.handle_tool_call, h]

/-- C5: whenever the image task runs with a notification channel it
emits exactly six notifications, in order: a `starting` status, four
progress notifications carrying the strictly increasing values
25, 50, 75, 100, and a final `completed` status after which no progress
notification follows; all are emitted before the result is returned
(the emitted list precedes the result in the embedding, matching the
source order). -/
theorem image_task_notification_sequence (server : MCPServer)
    (params : List (String × Value)) :
    ∃ m1 m2 m3 m4 m5 m6 : String,
      (server.handle_tool_call "mcp_create_text_to_image_task" params true).2 =
        [ Value.obj [("type", Value.str "status"), ("status", Value.str "starting"),
            ("message", Value.str m1)],
          Value.obj [("type", Value.str "progress"), ("progress", Value.num 25),
            ("message", Value.str m2)],
          Value.obj [("type", Value.str "progress"), ("progress", Value.num 50),
            ("message", Value.str m3)],
          Value.obj [("type", Value.str "progress"), ("progress", Value.num 75),
            ("message", Value.str m4)],
          Value.obj [("type", Value.str "progress"), ("progress", Value.num 100),
            ("message", Value.str m5)],
          Value.obj [("type", Value.str "status"), ("status", Value.str "completed"),
            ("message", Value.str m6)] ]
      ∧ (25 : Int) < 50 ∧ (50 : Int) < 75 ∧ (75 : Int) < 100 := by
  refine ⟨"Starting image generation for: "
      ++ pyStr (dictGet params "prompt" (.str "")),
    "Generating image: 25% complete", "Generating image: 50% complete",
    "Generating image: 75% complete", "Generating image: 100% complete",
    "Image generation complete!", ?_, by norm_num, by norm_num, by norm_num⟩
  rw [handle_image_snd]
  rfl

/-- C8: although every declared parameter is marked required, a missing
parameter never makes a known tool fail: `echo` without `"message"`
returns the empty string, `add` treats a missing `"a"` or `"b"` as `0`,
and the image task defaults the prompt to `""`, width and height to
`512`, and `num_images` to `1`. -/
theorem known_tools_default_missing_params (server : MCPServer)
    (params : List (String × Value)) (hasNotify : Bool) :
    (params.lookup "message" = none →
      (server.handle_tool_call "echo" params hasNotify).1
        = Except.ok (Value.str "")) ∧
    (∀ b : Int, params.lookup "a" = none → params.lookup "b" = some (Value.num b) →
      (server.handle_tool_call "add" params hasNotify).1
        = Except.ok (Value.num b)) ∧
    (∀ a : Int, params.lookup "a" = some (Value.num a) → params.lookup "b" = none →
      (server.handle_tool_call "add" params hasNotify).1
        = Except.ok (Value.num a)) ∧
    (params.lookup "a" = none → params.lookup "b" = none →
      (server.handle_tool_call "add" params hasNotify).1
        = Except.ok (Value.num 0)) ∧
    (params.lookup "prompt" = none → params.lookup "width" = none →
      params.lookup "height" = none → params.lookup "num_images" = none →
      (server.handle_tool_call "mcp_create_text_to_image_task" params hasNotify).1
        = Except.ok (Value.obj
            [ ("images", Value.list
                [Value.obj
                  [ ("url", Value.str "https://example.com/images/generated_0.png"),
                    ("width", Value.num 512), ("height", Value.num 512) ]]),
              ("prompt", Value.str "") ])) := by
  refine ⟨fun hm => ?_, fun b ha hb => ?_, fun a ha hb => ?_, fun ha hb => ?_,
    fun hp hw hh hn => ?_⟩
  · simp [MCPServer.handle_tool_call, dictGet, hm]
  · simp [MCPServer.handle_tool_call, dictGet, ha, hb, pyAdd]
  · simp [MCPServer.handle_tool_call, dictGet, ha, hb, pyAdd]
  · simp [MCPServer.handle_tool_call, dictGet, ha, hb, pyAdd]
  · simp [MCPServer.handle_tool_call, dictGet, hp, hw, hh, hn]
    rfl

/-- C8 witness: the empty parameter dictionary, on each known tool. -/
theorem known_tools_default_missing_params_witness :
    (MCPServer.mk.handle_tool_call "echo" [] false).1 = Except.ok (Value.str "") ∧
    (MCPServer.mk.handle_tool_call "add" [] false).1 = Except.ok (Value.num 0) ∧
    (MCPServer.mk.handle_tool_call "mcp_create_text_to_image_task" [] false).1
      = Except.ok (Value.obj
          [ ("images", Value.list
              [Value.obj
                [ ("url", Value.str "https://example.com/images/generated_0.png"),
                  ("width", Value.num 512), ("height", Value.num 512) ]]),
            ("prompt", Value.str "") ]) :=
  ⟨(known_tools_default_missing_params MCPServer.mk [] false).1 rfl,
   (known_tools_default_missing_params MCPServer.mk [] false).2.2.2.1 rfl rfl,
   (known_tools_default_missing_params MCPServer.mk [] false).2.2.2.2 rfl rfl rfl rfl⟩

/-- C9: when the image task is called with prompt, width, height and a
natural `num_images = n`, the result carries an `images` list of
exactly `n` entries, entry `i` having url
`https://example.com/images/generated_i.png` and the given width and
height, together with the `prompt` field; `n = 0` yields an empty list
rather than an error. -/
theorem image_task_result_structure (server : MCPServer)
    (params : List (String × Value)) (hasNotify : Bool) (n : Nat) (p w ht : Value)
    (hp : params.lookup "prompt" = some p)
    (hw : params.lookup "width" = some w)
    (hh : params.lookup "height" = some ht)
    (hn : params.lookup "num_images" = some (Value.num (n : Int))) :
    (server.handle_tool_call "mcp_create_text_to_image_task" params hasNotify).1
      = Except.ok (Value.obj
          [ ("images", Value.list ((List.range n).map (fun i =>
              Value.obj
                [ ("url", Value.str ("https://example.com/images/generated_"
                    ++ toString i ++ ".png")),
                  ("width", w), ("height", ht) ]))),
            ("prompt", p) ]) := by
  simp [MCPServer.handle_tool_call, dictGet, hp, hw, hh, hn]

/-- C9 witness: two images at 640 by 480 for prompt `"cat"`, and zero
images (an empty list, not an error) for prompt `"dog"`. -/
theorem image_task_result_structure_witness :
    (MCPServer.mk.handle_tool_call "mcp_create_text_to_image_task"
        [("prompt", Value.str "cat"), ("width", Value.num 640),
         ("height", Value.num 480), ("num_images", Value.num 2)] false).1
      = Except.ok (Value.obj
          [ ("images", Value.list
              [ Value.obj
                  [ ("url", Value.str "https://example.com/images/generated_0.png"),
                    ("width", Value.num 640), ("height", Value.num 480) ],
                Value.obj
                  [ ("url", Value.str "https://example.com/images/generated_1.png"),
                    ("width", Value.num 640), ("height", Value.num 480) ] ]),
            ("prompt", Value.str "cat") ]) ∧
    (MCPServer.mk.handle_tool_call "mcp_create_text_to_image_task"
        [("prompt", Value.str "dog"), ("width", Value.num 1),
         ("height", Value.num 1), ("num_images", Value.num 0)] false).1
      = Except.ok (Value.obj [("images", Value.list []), ("prompt", Value.str "dog")]) :=
  ⟨image_task_result_structure MCPServer.mk
      [("prompt", Value.str "cat"), ("width", Value.num 640),
       ("height", Value.num 480), ("num_images", Value.num 2)] false 2
      (Value.str "cat") (Value.num 640) (Value.num 480) rfl rfl rfl rfl,
   image_task_result_structure MCPServer.mk
      [("prompt", Value.str "dog"), ("width", Value.num 1),
       ("height", Value.num 1), ("num_images", Value.num 0)] false 0
      (Value.str "dog") (Value.num 1) (Value.num 1) rfl rfl rfl rfl⟩
